import Mathlib

/-!
Verification of the settings-synchronization core of the keyboard-informer
preferences surface (`prefs.js`).

The development shallowly embeds the JavaScript state of `SettingsManager`,
`SimpleManager`, `EntryManager` and `GroupBuilder` from `prefs.js`:

* JavaScript values that flow through the cache are strings, booleans or
  `undefined`; they are modelled by `JSVal`.
* JavaScript objects used as string-keyed records (`currentSymbols`,
  `currentUseIcon`, `savedSymbols`) are modelled as association lists
  (`JSObj`); reading an absent key yields `JSVal.undef`, exactly as property
  access on a JS object yields `undefined`, and assignment to a present key
  replaces the value in place while assignment to an absent key appends it.
* Strict equality `===` is modelled by `jsStrictEq` and the nullish
  coalescing operator `??` by `jsNullish`.

The mutable state reachable from the preferences window (GSettings store
contents, the two cache records, the saved preset, the entry widgets with
their signal-block counts, the pending idle sources, and the two header
buttons) is collected in `PrefsState`.
-/

/-- JavaScript value as it appears in the settings cache: a string, a boolean
or `undefined`. -/
inductive JSVal where
  | str : String → JSVal
  | boolean : Bool → JSVal
  | undef : JSVal
deriving DecidableEq, Repr

/-- A JavaScript object used as a string-keyed record. -/
abbrev JSObj := List (String × JSVal)

/-- Association-list lookup (first binding wins, as in a JS object where keys
are unique). -/
def alistLookup {α : Type} : List (String × α) → String → Option α
  | [], _ => none
  | (k', v') :: t, k => if k' = k then some v' else alistLookup t k

/-- Association-list update: replace the binding of `k` in place if present,
append it otherwise — the semantics of `obj[k] = v` on a JS object. -/
def alistSet {α : Type} : List (String × α) → String → α → List (String × α)
  | [], k, v => [(k, v)]
  | (k', v') :: t, k, v => if k' = k then (k, v) :: t else (k', v') :: alistSet t k v

/-- Property read `obj[k]` on a JS object: `undefined` when the key is absent. -/
def objGet (o : JSObj) (k : String) : JSVal :=
  (alistLookup o k).getD JSVal.undef

/-- Property write `obj[k] = v` on a JS object. -/
def objSet (o : JSObj) (k : String) (v : JSVal) : JSObj :=
  alistSet o k v

/-- JavaScript strict equality `===` restricted to the values that occur in
the settings cache. -/
def jsStrictEq : JSVal → JSVal → Bool
  | JSVal.str a, JSVal.str b => a == b
  | JSVal.boolean a, JSVal.boolean b => a == b
  | JSVal.undef, JSVal.undef => true
  | _, _ => false

/-- JavaScript nullish coalescing `v ?? d` (no `null` occurs in this core, so
only `undefined` falls through). -/
def jsNullish (v d : JSVal) : JSVal :=
  match v with
  | JSVal.undef => d
  | x => x

/-- JavaScript array read `a[i]`: `undefined` past the end. -/
def arrGet (l : List JSVal) (i : Nat) : JSVal :=
  l.getD i JSVal.undef

@[simp]
theorem jsStrictEq_refl (v : JSVal) : jsStrictEq v v = true := by
  cases v <;> simp [jsStrictEq]

@[simp]
theorem alistLookup_alistSet_self {α : Type} (l : List (String × α)) (k : String) (v : α) :
    alistLookup (alistSet l k v) k = some v := by
  induction l with
  | nil => simp [alistLookup, alistSet]
  | cons p t ih =>
    obtain ⟨k', v'⟩ := p
    by_cases h : k' = k
    · simp [alistLookup, alistSet, h]
    · simp [alistLookup, alistSet, h, ih]

theorem alistLookup_alistSet_ne {α : Type} (l : List (String × α)) (k k' : String) (v : α)
    (h : k ≠ k') : alistLookup (alistSet l k v) k' = alistLookup l k' := by
  induction l with
  | nil => simp [alistLookup, alistSet, h]
  | cons p t ih =>
    obtain ⟨k0, v0⟩ := p
    by_cases h0 : k0 = k
    · simp [alistLookup, alistSet, h0, h]
    · simp [alistLookup, alistSet, h0, ih]

@[simp]
theorem objGet_objSet_self (o : JSObj) (k : String) (v : JSVal) :
    objGet (objSet o k v) k = v := by
  simp [objGet, objSet]

theorem objGet_objSet_ne (o : JSObj) (k k' : String) (v : JSVal) (h : k ≠ k') :
    objGet (objSet o k v) k' = objGet o k' := by
  simp [objGet, objSet, alistLookup_alistSet_ne o k k' v h]

example : jsStrictEq (JSVal.str "⇧") (JSVal.str "⇧") = true := by decide

example : objGet [("shift-symbol", JSVal.str "⇧")] ("caps-symbol") = JSVal.undef := by decide

/-! ## The states and keys of the preferences surface -/

/-- One `Gtk.Entry` widget as `EntryManager` sees it: its `text` property and
the signal-block depth of its registered `changed` handler
(`block_signal_handler` / `unblock_signal_handler` nest, so a count). -/
structure Entry where
  text : JSVal
  blocked : Nat
deriving DecidableEq, Repr

/-- All mutable state reachable from the preferences window: the GSettings
store (string keys, boolean keys and the `saved-symbols` aggregate), the
`SettingsManager` cache records, the `EntryManager` widgets, the pending
`GLib.idle_add` unblock sources (the keys whose entries await unblocking, in
queue order), the two header buttons, and an instrumentation counter for
`onEntryChanged` / `_updateButtonStates` invocations (UI-refresh signals). -/
structure PrefsState where
  strings : JSObj
  bools : JSObj
  storeSaved : JSObj
  currentSymbols : JSObj
  currentUseIcon : JSObj
  savedSymbols : JSObj
  entries : List (String × Entry)
  idle : List String
  resetSensitive : Bool
  saveVisible : Bool
  refreshCount : Nat
deriving DecidableEq, Repr

/-- The fixed modifier list (`MODIFIERS` in `prefs.js`). -/
def MODIFIERS : List String :=
  ["shift", "caps", "control", "alt", "num", "scroll", "super", "altgr"]

/-- The `<id>-symbol` key of a modifier (`modifierKeys(name).symbol`). -/
def symbolKey (name : String) : String := name ++ "-symbol"

/-- The `<id>-icon-path` key of a modifier (`modifierKeys(name).icon`). -/
def iconKey (name : String) : String := name ++ "-icon-path"

/-- The `<id>-use-icon` key of a modifier (`modifierKeys(name).useIcon`). -/
def useIconKey (name : String) : String := name ++ "-use-icon"

/-- The key list `_createPreferenceGroups` builds for the single preference
group: for each modifier in order, its symbol, icon-path and use-icon keys. -/
def groupKeys : List String :=
  (MODIFIERS.map (fun name => [symbolKey name, iconKey name, useIconKey name])).flatten

/-- The `Symbols` entry of `SYMBOL_PRESETS` (`getSymbolPresets`), passed to
`createGroup` as the group's `defaultValues`: eight glyph strings, one per
modifier. -/
def symbolPresetValues : List String :=
  ["⇧", "Caps", "⌃", "⎇", "Num", "⇳", "❖", "⎈"]

/-- The group's `defaultValues` as the JS array of values it is. -/
def symbolPresetDVs : List JSVal := symbolPresetValues.map JSVal.str

/-- Modelled from the spec: the GSettings schema
(`schemas/org.gnome.shell.extensions.kbd-informer.gschema.xml`) is not under
`src/`, so the schema-declared default of each string key is taken from
spec §6 — each `<id>-symbol` key defaults to its short glyph or label (the
glyphs of the `Symbols` preset), each `<id>-icon-path` key defaults to the
empty string. `Gio.Settings.get_string` returns this default for unset keys. -/
def schemaStringDefault (key : String) : String :=
  if key == ("shift-symbol") then ("⇧")
  else if key == ("caps-symbol") then ("Caps")
  else if key == ("control-symbol") then ("⌃")
  else if key == ("alt-symbol") then ("⎇")
  else if key == ("num-symbol") then ("Num")
  else if key == ("scroll-symbol") then ("⇳")
  else if key == ("super-symbol") then ("❖")
  else if key == ("altgr-symbol") then ("⎈")
  else ""

/-- `this._settings.get_string(key)`: the stored string, or the
schema-declared default when the key is unset. -/
def getStringStore (st : PrefsState) (key : String) : String :=
  match objGet st.strings key with
  | JSVal.str s => s
  | _ => schemaStringDefault key

/-- Modelled from the spec (§6): every `<id>-use-icon` key defaults to
`false`. `this._settings.get_boolean(key)` returns the stored boolean, or
that default when the key is unset. -/
def getBoolStore (st : PrefsState) (key : String) : Bool :=
  match objGet st.bools key with
  | JSVal.boolean b => b
  | _ => false

/-! ## SettingsManager (`prefs.js` lines 46-126) -/

/-- `SettingsManager.setString(key, value)`: writes through to the store,
then records the value in `currentSymbols`. The value is a `JSVal` because
`SimpleManager.applyDefaults` passes `this.defaultValues[i]`, which is
`undefined` past the end of the `defaultValues` array. -/
def setString (st : PrefsState) (key : String) (value : JSVal) : PrefsState :=
  { st with strings := objSet st.strings key value,
            currentSymbols := objSet st.currentSymbols key value }

/-- `SettingsManager.setBoolean(key, value)`: writes through to the store,
then records the value in `currentUseIcon`. -/
def setBoolean (st : PrefsState) (key : String) (value : Bool) : PrefsState :=
  { st with bools := objSet st.bools key (JSVal.boolean value),
            currentUseIcon := objSet st.currentUseIcon key (JSVal.boolean value) }

/-- `SettingsManager.setSavedSymbols(symbols)`: replaces `this.savedSymbols`
with a copy of `symbols` and persists it wholesale as the `saved-symbols`
GSettings value (`GLib.Variant('a{ss}', ...)`). -/
def setSavedSymbols (st : PrefsState) (symbols : JSObj) : PrefsState :=
  { st with savedSymbols := symbols, storeSaved := symbols }

/-- `SettingsManager._loadCurrentState()`: reads every modifier's symbol and
icon-path string into a fresh `currentSymbols`, every use-icon boolean into a
fresh `currentUseIcon`, and unpacks the persisted `saved-symbols` aggregate
into `savedSymbols`. -/
def loadCurrentState (st : PrefsState) : PrefsState :=
  { st with
    currentSymbols := MODIFIERS.foldl (fun o name =>
      objSet (objSet o (symbolKey name) (JSVal.str (getStringStore st (symbolKey name))))
        (iconKey name) (JSVal.str (getStringStore st (iconKey name)))) [],
    currentUseIcon := MODIFIERS.foldl (fun o name =>
      objSet o (useIconKey name) (JSVal.boolean (getBoolStore st (useIconKey name)))) [],
    savedSymbols := st.storeSaved }

/-- `SettingsManager.symbolsEqual(obj1, obj2)`: false when the two objects
have different numbers of keys; otherwise every key of `obj1` must have
`(obj1[key] ?? '') === (obj2[key] ?? '')`. -/
def symbolsEqual (obj1 obj2 : JSObj) : Bool :=
  if (obj1.map Prod.fst).length != (obj2.map Prod.fst).length then false
  else (obj1.map Prod.fst).all (fun key =>
    jsStrictEq (jsNullish (objGet obj1 key) (JSVal.str ""))
      (jsNullish (objGet obj2 key) (JSVal.str "")))

/-- `SettingsManager.currentDiffersFromSaved(keys)`: some key has
`currentSymbols[key] !== (savedSymbols[key] ?? '')`. -/
def currentDiffersFromSaved (cur saved : JSObj) (keys : List String) : Bool :=
  keys.any (fun key =>
    !(jsStrictEq (objGet cur key) (jsNullish (objGet saved key) (JSVal.str ""))))

/-! ## SimpleManager (`prefs.js` lines 131-168) -/

/-- The body of `SimpleManager.isCurrentEqualToDefault`, indexed:
`keys.every((key, i) => currentSymbols[key] === defaultValues[i])` starting
at index `i`. -/
def isCurrentEqualToDefaultFrom (cur : JSObj) (dvs : List JSVal) : Nat → List String → Bool
  | _, [] => true
  | i, key :: t =>
    jsStrictEq (objGet cur key) (arrGet dvs i) && isCurrentEqualToDefaultFrom cur dvs (i + 1) t

/-- `SimpleManager.isCurrentEqualToDefault()`: every key of the manager's
key list, paired positionally with the manager's `defaultValues` array,
satisfies `currentSymbols[key] === defaultValues[i]`. -/
def isCurrentEqualToDefault (cur : JSObj) (keys : List String) (dvs : List JSVal) : Bool :=
  isCurrentEqualToDefaultFrom cur dvs 0 keys

/-- `SimpleManager.isCurrentEqualToSaved()`: the negation of
`currentDiffersFromSaved` over the manager's key list. -/
def isCurrentEqualToSaved (cur saved : JSObj) (keys : List String) : Bool :=
  !(currentDiffersFromSaved cur saved keys)

/-! ## EntryManager (`prefs.js` lines 173-211) -/

/-- `EntryManager.updateEntry(key, value)`: a no-op when no entry is bound
for `key`; otherwise blocks the entry's `changed` handler, assigns
`entry.text = value` (Gtk emits the synthetic `changed` signal only when the
text actually changes, and a blocked handler does not run), and schedules the
unblock on the idle queue. Returns the updated state together with the list
of `(key, newValue)` deliveries the `changed` emission makes to the
registered user-edit callback — empty exactly when the handler was blocked
or the text did not change. -/
def updateEntry (st : PrefsState) (key : String) (value : JSVal) :
    PrefsState × List (String × JSVal) :=
  match alistLookup st.entries key with
  | none => (st, [])
  | some ed =>
    let blockedEd : Entry := { ed with blocked := ed.blocked + 1 }
    let changed := !(jsStrictEq blockedEd.text value)
    let newEd : Entry := if changed then { blockedEd with text := value } else blockedEd
    let delivered := if changed && (blockedEd.blocked == 0) then [(key, value)] else []
    ({ st with entries := alistSet st.entries key newEd, idle := st.idle ++ [key] }, delivered)

/-- The body of one pending idle source from `updateEntry`:
`entry.unblock_signal_handler(changeId)`. A destroyed/unbound entry makes it
a silent no-op. -/
def unblockEntry (entries : List (String × Entry)) (key : String) : List (String × Entry) :=
  match alistLookup entries key with
  | none => entries
  | some ed => alistSet entries key { ed with blocked := ed.blocked - 1 }

/-- Drains the idle queue: runs every pending unblock in order. -/
def runIdleQueue (st : PrefsState) : PrefsState :=
  { st with entries := st.idle.foldl unblockEntry st.entries, idle := [] }

/-! ## SimpleManager mutations and GroupBuilder wiring
(`prefs.js` lines 148-167 and 327-571) -/

/-- The body of `SimpleManager.applyDefaults(entryManager)`, indexed: for
each key (at index `i` in the manager's key list) whose
`currentSymbols[key]` differs (`!==`) from `defaultValues[i]`, push the
default into the bound entry (`updateEntry`) and write it through the cache
(`setString`). The deliveries of `updateEntry` are dropped: the handler is
blocked for the write, so they are provably empty (`updateEntry_no_echo`). -/
def applyDefaultsFrom (dvs : List JSVal) : Nat → List String → PrefsState → PrefsState
  | _, [], st => st
  | i, key :: t, st =>
    let value := arrGet dvs i
    let st1 :=
      if jsStrictEq (objGet st.currentSymbols key) value then st
      else setString (updateEntry st key value).1 key value
    applyDefaultsFrom dvs (i + 1) t st1

/-- `SimpleManager.applyDefaults(entryManager)` over key list `keys` and
default-value array `dvs`. -/
def applyDefaults (keys : List String) (dvs : List JSVal) (st : PrefsState) : PrefsState :=
  applyDefaultsFrom dvs 0 keys st

/-- The loop of `SimpleManager.saveCurrentAsPreset()`:
`keys.forEach(key => { savedSymbols[key] = currentSymbols[key]; })`. -/
def promoteSaved (cur : JSObj) : List String → JSObj → JSObj
  | [], saved => saved
  | key :: t, saved => promoteSaved cur t (objSet saved key (objGet cur key))

/-- `SimpleManager.saveCurrentAsPreset()`: promote every key of the
manager's key list into `savedSymbols`, then persist the whole map via
`setSavedSymbols`. -/
def saveCurrentAsPreset (keys : List String) (st : PrefsState) : PrefsState :=
  setSavedSymbols st (promoteSaved st.currentSymbols keys st.savedSymbols)

/-- `GroupBuilder._updateButtonStates` (also the group's `onEntryChanged`):
recompute `isCurrentEqualToDefault` / `isCurrentEqualToSaved` and set
`resetButton.sensitive` / `saveButton.visible` from them; the counter
records that a UI-refresh signal was produced. -/
def refresh (keys : List String) (dvs : List JSVal) (st : PrefsState) : PrefsState :=
  { st with
    resetSensitive := !(isCurrentEqualToDefault st.currentSymbols keys dvs),
    saveVisible := !(isCurrentEqualToSaved st.currentSymbols st.savedSymbols keys),
    refreshCount := st.refreshCount + 1 }

/-- The mutation triggers the preferences surface reacts to: a user edit in
a symbol entry, a file picked for an icon path, a use-icon switch toggle,
the two header buttons, and the store's `changed::<key>` /
`changed::saved-symbols` subscriptions. -/
inductive Trigger where
  | entryEdit : String → String → Trigger
  | filePick : String → String → Trigger
  | switchToggle : String → Bool → Trigger
  | resetClick : Trigger
  | saveClick : Trigger
  | extSymbolChanged : String → Trigger
  | extIconChanged : String → Trigger
  | extUseIconChanged : String → Trigger
  | extSavedChanged : Trigger
deriving DecidableEq, Repr

/-- One event-loop turn of the preferences surface: the handler `prefs.js`
wires for each trigger, with store change notifications delivered as their
own turns (spec §5: one at a time, in order).

* `entryEdit key v` — the user types `v` into the entry bound to `key`: the
  widget text changes and, unless the handler is blocked, the `addEntry`
  callback runs (`if (currentSymbols[key] !== newValue) { setString;
  onEntryChanged(); }`).
* `filePick key path` — the `onPicked` callback of the icon file button.
* `switchToggle key b` — the `state-set` handler of the use-icon switch
  (`setBoolean` then `onEntryChanged`, unconditionally).
* `resetClick` / `saveClick` — the header buttons: `applyDefaults` /
  `saveCurrentAsPreset`, then `updateButtonStates`.
* `extSymbolChanged key` — the `changed::<id>-symbol` subscription: re-read
  the store; when it differs from the cache, update the cache, push into the
  entry, and refresh; otherwise do nothing.
* `extIconChanged key` — the `changed::<id>-icon-path` subscription (its
  file-button label update is not modelled: the label is presentation only).
* `extUseIconChanged key` — the `changed::<id>-use-icon` subscription; its
  `useIconSwitch.set_active(newVal)` re-enters the `state-set` handler,
  which is modelled by running `switchToggle`'s body before the final
  refresh.
* `extSavedChanged` — the `changed::saved-symbols` subscription: re-unpack
  the aggregate and, when `symbolsEqual` denies equality, replace
  `savedSymbols` and refresh. -/
def step (keys : List String) (dvs : List JSVal) : Trigger → PrefsState → PrefsState
  | Trigger.entryEdit key v, st =>
    match alistLookup st.entries key with
    | none => st
    | some ed =>
      let fired := !(jsStrictEq ed.text (JSVal.str v)) && (ed.blocked == 0)
      let st1 := { st with entries := alistSet st.entries key { ed with text := JSVal.str v } }
      if fired then
        if jsStrictEq (objGet st1.currentSymbols key) (JSVal.str v) then st1
        else refresh keys dvs (setString st1 key (JSVal.str v))
      else st1
  | Trigger.filePick key path, st =>
    if jsStrictEq (objGet st.currentSymbols key) (JSVal.str path) then st
    else refresh keys dvs (setString st key (JSVal.str path))
  | Trigger.switchToggle key b, st =>
    refresh keys dvs (setBoolean st key b)
  | Trigger.resetClick, st =>
    refresh keys dvs (applyDefaults keys dvs st)
  | Trigger.saveClick, st =>
    refresh keys dvs (saveCurrentAsPreset keys st)
  | Trigger.extSymbolChanged key, st =>
    let newValue := getStringStore st key
    if jsStrictEq (objGet st.currentSymbols key) (JSVal.str newValue) then st
    else
      let st1 := { st with currentSymbols := objSet st.currentSymbols key (JSVal.str newValue) }
      refresh keys dvs (updateEntry st1 key (JSVal.str newValue)).1
  | Trigger.extIconChanged key, st =>
    let newValue := getStringStore st key
    if jsStrictEq (objGet st.currentSymbols key) (JSVal.str newValue) then st
    else refresh keys dvs { st with currentSymbols := objSet st.currentSymbols key (JSVal.str newValue) }
  | Trigger.extUseIconChanged key, st =>
    let newVal := getBoolStore st key
    if jsStrictEq (objGet st.currentUseIcon key) (JSVal.boolean newVal) then st
    else
      let st1 := { st with currentUseIcon := objSet st.currentUseIcon key (JSVal.boolean newVal) }
      refresh keys dvs (refresh keys dvs (setBoolean st1 key newVal))
  | Trigger.extSavedChanged, st =>
    let newSavedSymbols := st.storeSaved
    if symbolsEqual st.savedSymbols newSavedSymbols then st
    else refresh keys dvs { st with savedSymbols := newSavedSymbols }

/-- The consistency `_updateButtonStates` establishes: the reset button is
sensitive exactly when the group is not at its defaults, and the save button
is visible exactly when the current values differ from the saved preset. -/
def ButtonsConsistent (keys : List String) (dvs : List JSVal) (st : PrefsState) : Prop :=
  st.resetSensitive = !(isCurrentEqualToDefault st.currentSymbols keys dvs) ∧
  st.saveVisible = !(isCurrentEqualToSaved st.currentSymbols st.savedSymbols keys)

/-- The state before `fillPreferencesWindow` touches anything: empty store,
empty caches, no widgets. -/
def pristineState : PrefsState :=
  { strings := [], bools := [], storeSaved := [], currentSymbols := [], currentUseIcon := [],
    savedSymbols := [], entries := [], idle := [], resetSensitive := true,
    saveVisible := false, refreshCount := 0 }

/-- The cache right after `SettingsManager.initialize()` on a pristine
store: every string key at its schema default, every use-icon flag `false`,
the saved preset empty. -/
def initState : PrefsState := loadCurrentState pristineState

/-! ## Basic facts about the embedded operations -/

theorem updateEntry_fst_currentSymbols (st : PrefsState) (key : String) (v : JSVal) :
    (updateEntry st key v).1.currentSymbols = st.currentSymbols := by
  cases h : alistLookup st.entries key <;> simp [updateEntry, h]

theorem applyDefaultsFrom_preserves (dvs : List JSVal) :
    ∀ (keys : List String) (i : Nat) (st : PrefsState) (k : String), k ∉ keys →
      objGet (applyDefaultsFrom dvs i keys st).currentSymbols k = objGet st.currentSymbols k := by
  intro keys
  induction keys with
  | nil => intro i st k _; rfl
  | cons key t ih =>
    intro i st k hk
    have hne : k ≠ key := fun h => hk (h ▸ List.mem_cons_self key t)
    have ht : k ∉ t := fun h => hk (List.mem_cons_of_mem key h)
    show objGet (applyDefaultsFrom dvs (i + 1) t _).currentSymbols k = _
    rw [ih (i + 1) _ k ht]
    by_cases hg : jsStrictEq (objGet st.currentSymbols key) (arrGet dvs i) = true
    · simp [hg]
    · simp [hg, setString, updateEntry_fst_currentSymbols,
        objGet_objSet_ne _ key k _ (Ne.symm hne)]

theorem applyDefaultsFrom_equalsFrom (dvs : List JSVal) :
    ∀ (keys : List String) (i : Nat) (st : PrefsState), keys.Nodup →
      isCurrentEqualToDefaultFrom (applyDefaultsFrom dvs i keys st).currentSymbols dvs i keys
        = true := by
  intro keys
  induction keys with
  | nil => intro i st _; rfl
  | cons key t ih =>
    intro i st hnd
    obtain ⟨hkt, hnd'⟩ := List.nodup_cons.mp hnd
    show (jsStrictEq (objGet (applyDefaultsFrom dvs (i + 1) t _).currentSymbols key) (arrGet dvs i)
      && isCurrentEqualToDefaultFrom _ dvs (i + 1) t) = true
    rw [Bool.and_eq_true]
    constructor
    · rw [applyDefaultsFrom_preserves dvs t (i + 1) _ key hkt]
      by_cases hg : jsStrictEq (objGet st.currentSymbols key) (arrGet dvs i) = true
      · simp [hg]
      · simp [hg, setString, updateEntry_fst_currentSymbols]
    · exact ih (i + 1) _ hnd'

theorem promoteSaved_not_mem (cur : JSObj) :
    ∀ (keys : List String) (saved : JSObj) (k : String), k ∉ keys →
      objGet (promoteSaved cur keys saved) k = objGet saved k := by
  intro keys
  induction keys with
  | nil => intro saved k _; rfl
  | cons key t ih =>
    intro saved k hk
    have hne : key ≠ k := fun h => hk (h ▸ List.mem_cons_self key t)
    have ht : k ∉ t := fun h => hk (List.mem_cons_of_mem key h)
    show objGet (promoteSaved cur t _) k = _
    rw [ih _ k ht, objGet_objSet_ne _ key k _ hne]

theorem promoteSaved_mem (cur : JSObj) :
    ∀ (keys : List String) (saved : JSObj) (k : String), k ∈ keys →
      objGet (promoteSaved cur keys saved) k = objGet cur k := by
  intro keys
  induction keys with
  | nil => intro saved k hk; exact absurd hk (List.not_mem_nil k)
  | cons key t ih =>
    intro saved k hk
    by_cases hkt : k ∈ t
    · exact ih _ k hkt
    · have hke : k = key := by
        cases List.mem_cons.mp hk with
        | inl h => exact h
        | inr h => exact absurd h hkt
      subst hke
      show objGet (promoteSaved cur t _) k = _
      rw [promoteSaved_not_mem cur t _ k hkt, objGet_objSet_self]

/-! ## Claim theorems -/

/-- Claim C5: `isCurrentEqualToSaved` (the negation of
`currentDiffersFromSaved`) returns true iff every key of the key list has
`currentSymbols[key] === (savedSymbols[key] ?? '')`; in particular, a key the
saved map omits entirely (here `caps-icon-path`) compares equal when the
current value is the empty string — absence in the saved map is treated as
the empty string, not as a distinct unset state. -/
theorem isCurrentEqualToSaved_iff :
    (∀ (cur saved : JSObj) (keys : List String),
      isCurrentEqualToSaved cur saved keys = true ↔
        ∀ k ∈ keys,
          jsStrictEq (objGet cur k) (jsNullish (objGet saved k) (JSVal.str "")) = true) ∧
    isCurrentEqualToSaved [(iconKey ("caps"), JSVal.str "")] [] [iconKey ("caps")] = true := by
  constructor
  · intro cur saved keys
    simp [isCurrentEqualToSaved, currentDiffersFromSaved]
  · decide

/-- Witness for C5 at a concrete cache: a matching singleton map compares
equal to itself. -/
theorem isCurrentEqualToSaved_iff_witness :
    isCurrentEqualToSaved [(("a"), JSVal.str "x")] [(("a"), JSVal.str "x")] [("a")] = true :=
  (isCurrentEqualToSaved_iff.1 _ _ _).mpr (by decide)

/-- Claim C10: `symbolsEqual` returns false whenever the two objects have
different key counts, even if all values agree under empty-string
defaulting; with equal key counts it returns true exactly when
`(obj1[k] ?? '') === (obj2[k] ?? '')` for every key `k` of `obj1` — so two
singleton maps with different keys but empty-string values compare equal,
while a map omitting a key compares unequal to the same map with that key
present as the empty string. -/
theorem symbolsEqual_spec :
    (∀ m1 m2 : JSObj, m1.length ≠ m2.length → symbolsEqual m1 m2 = false) ∧
    (∀ m1 m2 : JSObj, m1.length = m2.length →
      (symbolsEqual m1 m2 = true ↔
        ∀ k ∈ m1.map Prod.fst,
          jsStrictEq (jsNullish (objGet m1 k) (JSVal.str ""))
            (jsNullish (objGet m2 k) (JSVal.str "")) = true)) ∧
    symbolsEqual [(("a"), JSVal.str "")] [(("b"), JSVal.str "")] = true ∧
    symbolsEqual [(("a"), JSVal.str "")] [] = false := by
  refine ⟨?_, ?_, by decide, by decide⟩
  · intro m1 m2 h
    simp [symbolsEqual, h]
  · intro m1 m2 h
    simp [symbolsEqual, h]

/-- Witness for C10 at concrete maps: a one-key map and the empty map have
different key counts, so they compare unequal. -/
theorem symbolsEqual_spec_witness :
    symbolsEqual [(("a"), JSVal.str "x")] [] = false :=
  symbolsEqual_spec.1 _ _ (by decide)

/-- Claim C6: `saveCurrentAsPreset` is additive, never destructive — a saved
entry whose key is outside the promoted key list keeps its prior value, both
in the in-memory saved map and in the persisted `saved-symbols` aggregate,
while every promoted key is written with its current value. -/
theorem saveCurrentAsPreset_additive :
    ∀ (st : PrefsState) (keys : List String) (k k2 : String), k ∉ keys → k2 ∈ keys →
      objGet (saveCurrentAsPreset keys st).savedSymbols k = objGet st.savedSymbols k ∧
      objGet (saveCurrentAsPreset keys st).storeSaved k = objGet st.savedSymbols k ∧
      objGet (saveCurrentAsPreset keys st).savedSymbols k2 = objGet st.currentSymbols k2 ∧
      objGet (saveCurrentAsPreset keys st).storeSaved k2 = objGet st.currentSymbols k2 := by
  intro st keys k k2 hk hk2
  refine ⟨?_, ?_, ?_, ?_⟩ <;>
    simp [saveCurrentAsPreset, setSavedSymbols, promoteSaved_not_mem _ _ _ _ hk,
      promoteSaved_mem _ _ _ _ hk2]

/-- Witness for C6 at a concrete state: promoting `x` leaves the unrelated
saved entry `old` untouched in the persisted aggregate. -/
theorem saveCurrentAsPreset_additive_witness :
    objGet (saveCurrentAsPreset [("x")]
        { pristineState with
          currentSymbols := [(("x"), JSVal.str "v")],
          savedSymbols := [(("old"), JSVal.str "o")] }).storeSaved ("old")
      = JSVal.str "o" := by
  have h := saveCurrentAsPreset_additive
    { pristineState with
      currentSymbols := [(("x"), JSVal.str "v")],
      savedSymbols := [(("old"), JSVal.str "o")] }
    [("x")] ("old") ("x") (by decide) (by decide)
  calc objGet _ ("old") = objGet [(("old"), JSVal.str "o")] ("old") := h.2.1
  _ = JSVal.str "o" := by decide

/-- Claim C7: for every bound entry and every value, `updateEntry` never
re-invokes the registered user-edit callback for the value it pushes — the
`changed` handler is blocked before the text write (so the synthetic
`changed` emission delivers nothing), and it is still blocked when
`updateEntry` returns: the unblock is deferred to the idle queue, and only
draining that queue restores the handler's original block depth. -/
theorem updateEntry_no_echo :
    ∀ (st : PrefsState) (key : String) (v : JSVal) (ed : Entry),
      alistLookup st.entries key = some ed → st.idle = [] →
      (updateEntry st key v).2 = [] ∧
      (updateEntry st key v).1.idle = [key] ∧
      (∃ ed1, alistLookup (updateEntry st key v).1.entries key = some ed1 ∧
        ed1.blocked = ed.blocked + 1) ∧
      (∃ ed2, alistLookup (runIdleQueue (updateEntry st key v).1).entries key = some ed2 ∧
        ed2.blocked = ed.blocked) := by
  intro st key v ed h hidle
  by_cases hc : jsStrictEq ed.text v = true
  · refine ⟨?_, ?_, ?_, ?_⟩ <;>
      simp [updateEntry, h, hc, hidle, runIdleQueue, unblockEntry]
  · refine ⟨?_, ?_, ?_, ?_⟩ <;>
      simp [updateEntry, h, hc, hidle, runIdleQueue, unblockEntry]

/-- Witness for C7 at a concrete bound entry: pushing a new symbol delivers
no user-edit callback. -/
theorem updateEntry_no_echo_witness :
    (updateEntry
      { pristineState with
        entries := [(symbolKey ("shift"), { text := JSVal.str "⇧", blocked := 0 })] }
      (symbolKey ("shift")) (JSVal.str "S")).2 = [] :=
  (updateEntry_no_echo _ (symbolKey ("shift")) (JSVal.str "S")
    { text := JSVal.str "⇧", blocked := 0 } (by decide) (by decide)).1

/-- Claim C8: when a `changed::<id>-symbol` notification finds the store
value strictly equal to the cached current value (the echo of the cache's
own write), the handler is a complete no-op — the state is unchanged, so no
UI-refresh signal is produced, no widget is pushed into, and the cached
current record is untouched. -/
theorem extSymbolChanged_noop :
    ∀ (keys : List String) (dvs : List JSVal) (st : PrefsState) (key : String),
      jsStrictEq (objGet st.currentSymbols key) (JSVal.str (getStringStore st key)) = true →
      step keys dvs (Trigger.extSymbolChanged key) st = st ∧
      (step keys dvs (Trigger.extSymbolChanged key) st).refreshCount = st.refreshCount ∧
      (step keys dvs (Trigger.extSymbolChanged key) st).entries = st.entries ∧
      (step keys dvs (Trigger.extSymbolChanged key) st).currentSymbols = st.currentSymbols := by
  intro keys dvs st key h
  have hs : step keys dvs (Trigger.extSymbolChanged key) st = st := by simp [step, h]
  exact ⟨hs, by rw [hs], by rw [hs], by rw [hs]⟩

/-- Witness for C8 at the freshly loaded state: the `shift-symbol` cache
entry equals the store value, so the notification handler changes nothing. -/
theorem extSymbolChanged_noop_witness :
    step groupKeys symbolPresetDVs (Trigger.extSymbolChanged (symbolKey ("shift"))) initState
      = initState :=
  (extSymbolChanged_noop groupKeys symbolPresetDVs initState (symbolKey ("shift"))
    (by decide)).1

/-- Claim C2: for the key set the group is parameterized over, immediately
after `applyDefaults` completes, `isCurrentEqualToDefault` returns true —
every key of the list, paired positionally with the group's
`defaultValues`, has its cached current value strictly equal to that
default. -/
theorem applyDefaults_isCurrentEqualToDefault :
    ∀ st : PrefsState,
      isCurrentEqualToDefault (applyDefaults groupKeys symbolPresetDVs st).currentSymbols
        groupKeys symbolPresetDVs = true :=
  fun st => applyDefaultsFrom_equalsFrom symbolPresetDVs groupKeys 0 st (by decide)

theorem refresh_consistent :
    ∀ (keys : List String) (dvs : List JSVal) (st : PrefsState),
      ButtonsConsistent keys dvs (refresh keys dvs st) := by
  intro keys dvs st
  exact ⟨rfl, rfl⟩

/-- Claim C9: the initial `updateButtonStates` call establishes, and every
mutation trigger (`setString`/`setBoolean` via entry, file-pick or switch
handlers, `resetToDefault`, `saveAsPreset`, and the external `changed::…`
reconciliations) preserves, the button consistency: the reset button is
enabled iff the current state is not at the group's defaults, and the save
button is visible iff the current state is not equal to the saved preset. -/
theorem step_buttons_consistent :
    ∀ (keys : List String) (dvs : List JSVal) (st : PrefsState) (t : Trigger),
      ButtonsConsistent keys dvs (refresh keys dvs st) ∧
      (ButtonsConsistent keys dvs st → ButtonsConsistent keys dvs (step keys dvs t st)) := by
  intro keys dvs st t
  refine ⟨refresh_consistent keys dvs st, fun h => ?_⟩
  cases t with
  | entryEdit key v =>
    cases hl : alistLookup st.entries key with
    | none => simpa [step, hl] using h
    | some ed =>
      simp only [step, hl]
      split
      · split
        · exact h
        · exact refresh_consistent keys dvs _
      · exact h
  | filePick key path =>
    simp only [step]
    split
    · exact h
    · exact refresh_consistent keys dvs _
  | switchToggle key b => exact refresh_consistent keys dvs _
  | resetClick => exact refresh_consistent keys dvs _
  | saveClick => exact refresh_consistent keys dvs _
  | extSymbolChanged key =>
    simp only [step]
    split
    · exact h
    · exact refresh_consistent keys dvs _
  | extIconChanged key =>
    simp only [step]
    split
    · exact h
    · exact refresh_consistent keys dvs _
  | extUseIconChanged key =>
    simp only [step]
    split
    · exact h
    · exact refresh_consistent keys dvs _
  | extSavedChanged =>
    simp only [step]
    split
    · exact h
    · exact refresh_consistent keys dvs _

/-- Witness for C9: a save click from the freshly refreshed initial state
leaves the buttons consistent with the recomputed predicates. -/
theorem step_buttons_consistent_witness :
    ButtonsConsistent groupKeys symbolPresetDVs
      (step groupKeys symbolPresetDVs Trigger.saveClick
        (refresh groupKeys symbolPresetDVs initState)) :=
  (step_buttons_consistent groupKeys symbolPresetDVs
    (refresh groupKeys symbolPresetDVs initState) Trigger.saveClick).2 ⟨by decide, by decide⟩

/-! ## The group's actual parameterization versus the schema defaults -/

/-- Tests whether a key is one of the `<id>-use-icon` keys. -/
def isUseIconKey (key : String) : Bool :=
  MODIFIERS.any (fun name => key == useIconKey name)

/-- Modelled from the spec (§6, §3 `DefaultRecord`): the schema-declared
default of a key — the glyph/label for `<id>-symbol`, the empty string for
`<id>-icon-path`, `false` for `<id>-use-icon`. The schema XML itself is not
under `src/`. -/
def schemaDefaultValue (key : String) : JSVal :=
  if isUseIconKey key then JSVal.boolean false
  else JSVal.str (schemaStringDefault key)

/-- The cached current value of a key, read from the record
`_loadCurrentState` keeps it in: `currentUseIcon` for `<id>-use-icon` keys,
`currentSymbols` for the string keys. -/
def cachedValue (st : PrefsState) (key : String) : JSVal :=
  if isUseIconKey key then objGet st.currentUseIcon key
  else objGet st.currentSymbols key

/-- The cache right after the reset button is clicked on the freshly loaded
state (`applyDefaults` over the group's key list and default-value list). -/
def stateAfterReset : PrefsState := applyDefaults groupKeys symbolPresetDVs initState

/-- Claim C1 is false on the code: `isCurrentEqualToDefault` does not test
the schema-declared defaults. At the freshly loaded state every key of the
group holds its schema default (symbols at their glyphs, icon paths empty,
use-icon flags false), yet the function returns `false`, because it pairs
the 24-key group list positionally with the 8-glyph `defaultValues` array
(`shift-icon-path` is compared against the glyph `Caps`, `shift-use-icon`
against `⌃`, and every key past index 7 against `undefined`) and looks
use-icon keys up in `currentSymbols`, which never holds them. Conversely,
right after a reset click the function returns `true` although
`shift-icon-path` then caches `Caps`, not its schema default `""`. -/
theorem isCurrentEqualToDefault_vs_schema_defaults :
    (groupKeys.all (fun k => jsStrictEq (cachedValue initState k) (schemaDefaultValue k)) = true ∧
     isCurrentEqualToDefault initState.currentSymbols groupKeys symbolPresetDVs = false) ∧
    (isCurrentEqualToDefault stateAfterReset.currentSymbols groupKeys symbolPresetDVs = true ∧
     jsStrictEq (cachedValue stateAfterReset (iconKey ("shift")))
       (schemaDefaultValue (iconKey ("shift"))) = false) := by
  decide

/-- Claim C3 is false on the code: immediately after
`saveCurrentAsPreset` over the group's 24-key list, `isCurrentEqualToSaved`
over that same list returns `false` — the loop stores
`currentSymbols['<id>-use-icon']` (which is `undefined`) into the saved map,
and the comparison then finds `undefined !== (undefined ?? '')`. -/
theorem saveCurrentAsPreset_not_equal_to_saved :
    isCurrentEqualToSaved (saveCurrentAsPreset groupKeys initState).currentSymbols
      (saveCurrentAsPreset groupKeys initState).savedSymbols groupKeys = false := by
  decide

/-- Claim C4 is false on the code: one `saveCurrentAsPreset` call over the
group's key list inserts every `<id>-use-icon` key into the saved map (with
value `undefined`, not a string), and the whole map — use-icon keys
included — is handed to the store write for the `saved-symbols` aggregate. -/
theorem saveCurrentAsPreset_adds_use_icon_keys :
    ((saveCurrentAsPreset groupKeys initState).savedSymbols.map Prod.fst).contains
        (useIconKey ("shift")) = true ∧
    objGet (saveCurrentAsPreset groupKeys initState).savedSymbols (useIconKey ("shift"))
      = JSVal.undef ∧
    ((saveCurrentAsPreset groupKeys initState).storeSaved.map Prod.fst).contains
        (useIconKey ("shift")) = true := by
  decide
